import Mathlib

/-!
Shallow embedding of the `102hanghoa` shipment-management application
(`src/database.py`, `src/telegram_helpers.py`, `src/drive_upload.py`, and the
`complete_transfer` flow of `src/app.py`), together with proofs about the
embedded operations.

Modelling conventions:
* SQLite tables become lists of records; `ShipmentDetails`, `AuditLog`,
  `TransferSlips` and `TransferSlipItems` are the fields of `DB`.
* Timestamps are natural numbers; every occurrence of `CURRENT_TIMESTAMP` /
  `datetime.now()` becomes an explicit `now : Nat` argument.
* Nullable columns and Python `None` defaults are `Option` values; Python
  truthiness tests (`if notes:`) are made explicit (`pyTruthyStr`, …).
* External side effects (Google Sheets sync, Telegram HTTP calls, Google
  Drive) are modelled as explicit function parameters or oracles; calls that
  the Python code fires and forgets are recorded as traces.
* `AUTOINCREMENT` ids are modelled by the `nextAuditId` counter of `DB`.
-/

/-- Python truthiness of an optional string: `None` and `""` are falsy. -/
def pyTruthyStr : Option String → Bool
  | none => false
  | some s => s != ""

/-- Python truthiness of an optional integer: `None` and `0` are falsy. -/
def pyTruthyNat : Option Nat → Bool
  | none => false
  | some n => n != 0

/-- Python `x or d` for an optional string `x`. -/
def pyOrStr (o : Option String) (d : String) : String :=
  match o with
  | none => d
  | some s => if s == "" then d else s

/-- `UPDATE`-style assignment: when the parameter was passed, it overwrites the
stored optional column, otherwise the column keeps its value. -/
def setOpt {α : Type} (p : Option α) (old : Option α) : Option α :=
  match p with
  | some v => some v
  | none => old

/-- A row of the `ShipmentDetails` table (all columns created by
`init_database`, including the migration-added ones). -/
structure Shipment where
  id : Nat
  qr_code : String
  imei : String
  device_name : String
  capacity : String
  supplier : String
  status : String
  request_type : String
  sent_time : Nat
  received_time : Option Nat
  completed_time : Option Nat
  created_by : String
  updated_by : Option String
  notes : Option String
  image_url : Option String
  telegram_message_id : Option Nat
  store_name : Option String
  reception_location : Option String
  last_updated : Nat
  device_status_on_reception : Option String
  repairer : Option String
  repair_start_date : Option Nat
  repair_completion_date : Option Nat
  ycsc_completion_date : Option Nat
  repair_notes : Option String
  quality_check_notes : Option String
  repair_image_url : Option String
  quotation_notes : Option String
  deriving Repr, DecidableEq

/-- A row of the `AuditLog` table. -/
structure AuditEntry where
  id : Nat
  shipment_id : Nat
  action : String
  old_value : Option String
  new_value : Option String
  changed_by : String
  timestamp : Nat
  deriving Repr, DecidableEq

/-- A row of the `TransferSlips` table. -/
structure TransferSlip where
  id : Nat
  transfer_code : String
  status : String
  created_by : String
  completed_by : Option String
  created_at : Nat
  completed_at : Option Nat
  image_url : Option String
  notes : Option String
  deriving Repr, DecidableEq

/-- A row of the `TransferSlipItems` table. -/
structure SlipItem where
  transfer_slip_id : Nat
  shipment_id : Nat
  deriving Repr, DecidableEq

/-- The database state: the four tables plus the `AUTOINCREMENT` counter of
`AuditLog`. -/
structure DB where
  shipments : List Shipment
  audit : List AuditEntry
  nextAuditId : Nat
  slips : List TransferSlip
  slipItems : List SlipItem
  deriving Repr, DecidableEq

/-- Result dictionary `{'success': …, 'error': …}` returned by the update
operations of `database.py`. -/
structure UpdateResult where
  success : Bool
  error : Option String
  deriving Repr, DecidableEq

/-- Result dictionary `{'success': …, 'updated_count': …, 'error': …}`
returned by `update_transfer_slip_shipments_status` and
`auto_update_status_after_1hour`. -/
structure CountResult where
  success : Bool
  updated_count : Nat
  error : Option String
  deriving Repr, DecidableEq

/-- Result dictionary of `cleanup_audit_log`. -/
structure CleanupResult where
  success : Bool
  deleted_count : Nat
  error : Option String
  deriving Repr, DecidableEq

/-- `database.log_audit`: `INSERT INTO AuditLog (shipment_id, action,
old_value, new_value, changed_by) VALUES (?, ?, ?, ?, ?)`; the `id` comes from
`AUTOINCREMENT` and `timestamp` from its `DEFAULT CURRENT_TIMESTAMP`. -/
def log_audit (shipment_id : Nat) (action : String) (old_value new_value : Option String)
    (changed_by : String) (now : Nat) (db : DB) : DB :=
  { db with
    audit := db.audit ++
      [{ id := db.nextAuditId, shipment_id := shipment_id, action := action,
         old_value := old_value, new_value := new_value, changed_by := changed_by,
         timestamp := now }]
    nextAuditId := db.nextAuditId + 1 }

/-- The new column values `update_shipment_status` assigns to every row
matching the `WHERE qr_code = ?` clause.  `cur` is the row fetched by the
initial `SELECT` (`current_image_url` in the source); `r` is the row being
updated.  Mirrors the `update_fields` dictionary of the source line by
line. -/
def applyStatusFields (cur : Shipment) (new_status updated_by : String)
    (notes image_url : Option String) (now : Nat) (r : Shipment) : Shipment :=
  { r with
    status := new_status
    updated_by := some updated_by
    last_updated := now
    received_time :=
      if new_status == "Đã nhận" then some now else r.received_time
    repair_start_date :=
      if new_status == "Đang sửa chữa" then some now else r.repair_start_date
    repair_completion_date :=
      if new_status == "Hoàn thành sửa chữa" then some now else r.repair_completion_date
    ycsc_completion_date :=
      if new_status == "Hoàn thành YCSC" then some now else r.ycsc_completion_date
    completed_time :=
      if new_status == "Hoàn thành YCSC" then some now else r.completed_time
    notes := if pyTruthyStr notes then notes else r.notes
    image_url :=
      if pyTruthyStr image_url then
        if pyTruthyStr cur.image_url then
          some (cur.image_url.getD "" ++ ";" ++ image_url.getD "")
        else image_url
      else r.image_url }

/-- `database.update_shipment_status`: looks the shipment up by `qr_code`
(`fetchone`, i.e. first matching row), fails with `'Phiếu không tồn tại'` when
absent, otherwise updates the row (status, `updated_by`, status-keyed
timestamps, optional notes, image append, `last_updated`) and logs exactly one
`STATUS_CHANGED` audit entry.  The Google-Sheets sync is an external side
effect with no influence on the returned result and is not modelled. -/
def update_shipment_status (qr_code new_status updated_by : String)
    (notes image_url : Option String) (now : Nat) (db : DB) : UpdateResult × DB :=
  match db.shipments.find? (fun s => s.qr_code == qr_code) with
  | none => ({ success := false, error := some "Phiếu không tồn tại" }, db)
  | some cur =>
    let db1 : DB :=
      { db with
        shipments := db.shipments.map (fun r =>
          if r.qr_code == qr_code then
            applyStatusFields cur new_status updated_by notes image_url now r
          else r) }
    let db2 := log_audit cur.id "STATUS_CHANGED" (some cur.status) (some new_status)
      updated_by now db1
    ({ success := true, error := none }, db2)

/-- The optional parameters of `database.update_shipment`, in the order of the
Python signature (every one defaults to `None`). -/
structure UpdateShipmentArgs where
  qr_code : Option String := none
  imei : Option String := none
  device_name : Option String := none
  capacity : Option String := none
  supplier : Option String := none
  status : Option String := none
  notes : Option String := none
  updated_by : Option String := none
  image_url : Option String := none
  telegram_message_id : Option Nat := none
  store_name : Option String := none
  request_type : Option String := none
  completed_time : Option Nat := none
  reception_location : Option String := none
  device_status_on_reception : Option String := none
  repairer : Option String := none
  repair_start_date : Option Nat := none
  repair_completion_date : Option Nat := none
  ycsc_completion_date : Option Nat := none
  repair_notes : Option String := none
  quality_check_notes : Option String := none
  repair_image_url : Option String := none
  quotation_notes : Option String := none
  deriving Repr, DecidableEq

/-- Whether `update_shipment` collects at least one entry in its `updates`
list (each `is not None` parameter contributes one `SET` clause). -/
def hasAnyUpdate (a : UpdateShipmentArgs) : Bool :=
  a.qr_code.isSome || a.imei.isSome || a.device_name.isSome || a.capacity.isSome ||
  a.supplier.isSome || a.status.isSome || a.notes.isSome || a.updated_by.isSome ||
  a.image_url.isSome || a.telegram_message_id.isSome || a.store_name.isSome ||
  a.request_type.isSome || a.completed_time.isSome || a.reception_location.isSome ||
  a.device_status_on_reception.isSome || a.repairer.isSome || a.repair_start_date.isSome ||
  a.repair_completion_date.isSome || a.ycsc_completion_date.isSome || a.repair_notes.isSome ||
  a.quality_check_notes.isSome || a.repair_image_url.isSome || a.quotation_notes.isSome

/-- The `SET` clauses of `update_shipment` applied to one row (`WHERE id = ?`
matches it).  Note that a provided `image_url` is assigned outright
(`image_url = ?`), `received_time` is set when the `status` parameter equals
`'Đã nhận'`, and `completed_time` is auto-set for `'Hoàn thành YCSC'` only when
no explicit `completed_time` was passed. -/
def applyUpdateShipment (a : UpdateShipmentArgs) (now : Nat) (r : Shipment) : Shipment :=
  { r with
    qr_code := a.qr_code.getD r.qr_code
    imei := a.imei.getD r.imei
    device_name := a.device_name.getD r.device_name
    capacity := a.capacity.getD r.capacity
    supplier := a.supplier.getD r.supplier
    status := a.status.getD r.status
    received_time :=
      if a.status == some "Đã nhận" then some now else r.received_time
    notes := setOpt a.notes r.notes
    updated_by := setOpt a.updated_by r.updated_by
    image_url := setOpt a.image_url r.image_url
    telegram_message_id := setOpt a.telegram_message_id r.telegram_message_id
    store_name := setOpt a.store_name r.store_name
    request_type := a.request_type.getD r.request_type
    reception_location := setOpt a.reception_location r.reception_location
    completed_time :=
      match a.completed_time with
      | some c => some c
      | none =>
        if a.status == some "Hoàn thành YCSC" then some now else r.completed_time
    device_status_on_reception := setOpt a.device_status_on_reception r.device_status_on_reception
    repairer := setOpt a.repairer r.repairer
    repair_start_date := setOpt a.repair_start_date r.repair_start_date
    repair_completion_date := setOpt a.repair_completion_date r.repair_completion_date
    ycsc_completion_date := setOpt a.ycsc_completion_date r.ycsc_completion_date
    repair_notes := setOpt a.repair_notes r.repair_notes
    quality_check_notes := setOpt a.quality_check_notes r.quality_check_notes
    repair_image_url := setOpt a.repair_image_url r.repair_image_url
    quotation_notes := setOpt a.quotation_notes r.quotation_notes
    last_updated := now }

/-- Python `s[:50] + ('...' if len(s) > 50 else '')`. -/
def notePreview (s : String) : String :=
  (s.take 50) ++ (if s.length > 50 then "..." else "")

/-- The `changed_fields` list `update_shipment` builds for its audit message,
in source order. -/
def changedFields (a : UpdateShipmentArgs) : List String :=
  (match a.qr_code with | some v => ["Mã yêu cầu: " ++ v] | none => []) ++
  (match a.imei with | some v => ["IMEI: " ++ v] | none => []) ++
  (match a.device_name with | some v => ["Tên thiết bị: " ++ v] | none => []) ++
  (match a.capacity with | some v => ["Dung lượng: " ++ v] | none => []) ++
  (match a.supplier with | some v => ["Nhà cung cấp: " ++ v] | none => []) ++
  (match a.status with | some v => ["Trạng thái: " ++ v] | none => []) ++
  (match a.notes with | some v => ["Ghi chú: " ++ notePreview v] | none => []) ++
  (match a.request_type with | some v => ["Loại yêu cầu: " ++ v] | none => []) ++
  (match a.store_name with | some v => ["Cửa hàng: " ++ v] | none => []) ++
  (match a.reception_location with | some v => ["Nơi tiếp nhận: " ++ v] | none => []) ++
  (match a.device_status_on_reception with
    | some v => ["Tình trạng thiết bị: " ++ v] | none => []) ++
  (match a.repairer with | some v => ["Người sửa: " ++ v] | none => []) ++
  (match a.repair_notes with | some v => ["Ghi chú sửa máy: " ++ notePreview v] | none => []) ++
  (match a.quality_check_notes with
    | some v => ["Ghi chú kiểm tra: " ++ notePreview v] | none => []) ++
  (match a.quotation_notes with
    | some v => ["Ghi chú báo giá: " ++ notePreview v] | none => []) ++
  (match a.image_url with | some _ => ["Hình ảnh đã được cập nhật"] | none => []) ++
  (match a.repair_image_url with
    | some _ => ["Hình ảnh sửa máy đã được cập nhật"] | none => [])

/-- `database.update_shipment`: builds a `SET` list from the non-`None`
parameters, refuses an empty update, hits the UNIQUE constraint of `qr_code`
when the new code already belongs to a different row (uncommitted changes are
then discarded by `conn.close()`), otherwise updates the matching row, appends
`last_updated = CURRENT_TIMESTAMP`, and logs one `UPDATED` audit entry whose
message lists the changed fields.  The Google-Sheets sync is external and not
modelled. -/
def update_shipment (shipment_id : Nat) (a : UpdateShipmentArgs) (now : Nat)
    (db : DB) : UpdateResult × DB :=
  if !hasAnyUpdate a then
    ({ success := false, error := some "Không có thông tin để cập nhật" }, db)
  else
    let violatesUnique : Bool :=
      match a.qr_code with
      | none => false
      | some q =>
        (db.shipments.any (fun s => s.id == shipment_id)) &&
        (db.shipments.any (fun r => r.id != shipment_id && r.qr_code == q))
    if violatesUnique then
      ({ success := false, error := some "Mã QR đã tồn tại" }, db)
    else
      let db1 : DB :=
        { db with
          shipments := db.shipments.map (fun r =>
            if r.id == shipment_id then applyUpdateShipment a now r else r) }
      let msg :=
        match changedFields a with
        | [] => "Đã cập nhật thông tin phiếu"
        | fs => "Đã cập nhật: " ++ String.intercalate " | " fs
      let db2 := log_audit shipment_id "UPDATED" none (some msg)
        (pyOrStr a.updated_by "system") now db1
      ({ success := true, error := none }, db2)

/-- The member `shipment_id`s of a transfer slip, in `TransferSlipItems`
insertion order (`SELECT shipment_id FROM TransferSlipItems WHERE
transfer_slip_id = ?`). -/
def transferSlipMemberIds (transfer_slip_id : Nat) (db : DB) : List Nat :=
  (db.slipItems.filter (fun it => it.transfer_slip_id == transfer_slip_id)).map
    (fun it => it.shipment_id)

/-- The keys of the dictionaries returned by
`update_transfer_slip_shipments_status` (every `return` statement of the
source uses exactly these three keys). -/
def updateTransferSlipShipmentsStatusResultKeys : List String :=
  ["success", "updated_count", "error"]

/-- One iteration of the member loop of
`update_transfer_slip_shipments_status`: execute `UPDATE ShipmentDetails SET
status = ?, updated_by = ? WHERE id = ?` on the current table and add the
`cursor.rowcount` (the number of rows the id matched) to the accumulator. -/
def cascadeStep (new_status : String) (creator : Option String)
    (acc : List Shipment × Nat) (sid : Nat) : List Shipment × Nat :=
  (acc.1.map (fun r =>
    if r.id == sid then { r with status := new_status, updated_by := creator } else r),
   acc.2 + acc.1.countP (fun r => r.id == sid))

/-- `database.update_transfer_slip_shipments_status`: collects the member
shipment ids of the slip, rejects an empty slip, then per member id executes
`UPDATE ShipmentDetails SET status = ?, updated_by = (SELECT created_by FROM
TransferSlips WHERE id = ?) WHERE id = ?`, accumulating `cursor.rowcount`
(the scalar subquery yields `NULL` when the slip row is absent).  Returns
`success`/`updated_count`/`error`. -/
def update_transfer_slip_shipments_status (transfer_slip_id : Nat) (new_status : String)
    (db : DB) : CountResult × DB :=
  let shipment_ids := transferSlipMemberIds transfer_slip_id db
  if shipment_ids.isEmpty then
    ({ success := false, updated_count := 0,
       error := some "Không có máy nào trong phiếu chuyển" }, db)
  else
    let creator : Option String :=
      (db.slips.find? (fun ts => ts.id == transfer_slip_id)).map (fun ts => ts.created_by)
    let final := shipment_ids.foldl (cascadeStep new_status creator) (db.shipments, 0)
    ({ success := true, updated_count := final.2, error := none },
     { db with shipments := final.1 })

/-- `database.update_transfer_slip`: builds a `SET` list from the truthy
parameters, auto-sets `completed_at` when a truthy `status` other than
`'Đang chuyển'` is given, refuses an empty update, and applies the clauses to
the slip row matched by `WHERE id = ?`. -/
def update_transfer_slip (transfer_slip_id : Nat)
    (status image_url completed_by notes : Option String) (now : Nat)
    (db : DB) : UpdateResult × DB :=
  let anyUpdate :=
    pyTruthyStr status || pyTruthyStr image_url || pyTruthyStr completed_by ||
    pyTruthyStr notes
  if !anyUpdate then
    ({ success := false, error := some "Không có thay đổi nào" }, db)
  else
    let apply := fun (ts : TransferSlip) =>
      { ts with
        status := if pyTruthyStr status then status.getD ts.status else ts.status
        image_url := if pyTruthyStr image_url then image_url else ts.image_url
        completed_by := if pyTruthyStr completed_by then completed_by else ts.completed_by
        notes := if pyTruthyStr notes then notes else ts.notes
        completed_at :=
          if pyTruthyStr status && (status.getD "") != "Đang chuyển" then some now
          else ts.completed_at }
    ({ success := true, error := none },
     { db with
       slips := db.slips.map (fun ts =>
         if ts.id == transfer_slip_id then apply ts else ts) })

/-- The `complete_transfer` flow of `app.show_transfer_slips`: first mark the
slip `'Đã hoàn thành'` via `update_transfer_slip` (with the uploaded image,
the current user and optional notes), and only if that succeeded cascade the
chosen status to the member shipments via
`update_transfer_slip_shipments_status`.  The Telegram notification that
follows is external and does not alter the database. -/
def complete_transfer (transfer_slip_id : Nat) (new_status : String)
    (image_url : Option String) (current_user : String) (notes : Option String)
    (now : Nat) (db : DB) : UpdateResult × Option CountResult × DB :=
  let (ur, db1) := update_transfer_slip transfer_slip_id (some "Đã hoàn thành")
    image_url (some current_user) notes now db
  if ur.success then
    let (sr, db2) := update_transfer_slip_shipments_status transfer_slip_id new_status db1
    (ur, some sr, db2)
  else
    (ur, none, db1)

/-- One `UPDATE … WHERE status = ? AND datetime(last_updated) <= datetime('now',
'-1 hour')` rule of the auto-escalation sweep: the row matches when it has
been sitting in `fromStatus` for at least one hour (3600 seconds). -/
def sweepHit (fromStatus : String) (now : Nat) (r : Shipment) : Bool :=
  r.status == fromStatus && decide (r.last_updated + 3600 ≤ now)

/-- Apply one sweep rule set-based, returning the new table and the
`cursor.rowcount` of the `UPDATE`. -/
def sweepRule (fromStatus toStatus : String) (now : Nat)
    (shipments : List Shipment) : List Shipment × Nat :=
  (shipments.map (fun r =>
     if sweepHit fromStatus now r then { r with status := toStatus, last_updated := now }
     else r),
   shipments.countP (sweepHit fromStatus now))

/-- `database.auto_update_status_after_1hour`: three sequential set-based
`UPDATE`s — `'Đã nhận' → 'Nhập kho xử lý'`, `'Nhập kho' → 'Nhập kho xử lý'`,
`'Chuyển kho' → 'Đang xử lý'` — each refreshing `last_updated`, summing the
row counts.  The function body contains no `log_audit` call: `AuditLog` (and
`nextAuditId`) are untouched. -/
def auto_update_status_after_1hour (now : Nat) (db : DB) : CountResult × DB :=
  let (s1, c1) := sweepRule "Đã nhận" "Nhập kho xử lý" now db.shipments
  let (s2, c2) := sweepRule "Nhập kho" "Nhập kho xử lý" now s1
  let (s3, c3) := sweepRule "Chuyển kho" "Đang xử lý" now s2
  ({ success := true, updated_count := c1 + c2 + c3, error := none },
   { db with shipments := s3 })

/-- The `ORDER BY timestamp DESC, id DESC` order of `cleanup_audit_log`:
`auditOrder a b` holds when `a` may be listed before `b`, i.e. `a` is more
recent, or has the same timestamp and at least as large an id. -/
def auditOrder (a b : AuditEntry) : Prop :=
  b.timestamp < a.timestamp ∨ (a.timestamp = b.timestamp ∧ b.id ≤ a.id)

instance : DecidableRel auditOrder := fun a b => by
  unfold auditOrder
  exact inferInstance

instance : IsTotal AuditEntry auditOrder := by
  constructor
  intro a b
  unfold auditOrder
  omega

instance : IsTrans AuditEntry auditOrder := by
  constructor
  intro a b c
  unfold auditOrder
  omega

/-- The `max_rows` top entries of the audit log in the `ORDER BY timestamp
DESC, id DESC` order (`SELECT id FROM AuditLog ORDER BY … LIMIT max_rows`,
before projecting to ids). -/
def cleanupKeepList (max_rows : Nat) (db : DB) : List AuditEntry :=
  (List.insertionSort auditOrder db.audit).take max_rows

/-- `database.cleanup_audit_log`: counts the log; if it does not exceed
`max_rows` nothing happens; otherwise the ids of the `max_rows` most recent
entries (`ORDER BY timestamp DESC, id DESC LIMIT max_rows`) are collected and,
when that id list is non-empty, `DELETE FROM AuditLog WHERE id NOT IN (…)`
removes the others, reporting `cursor.rowcount` as `deleted_count`.  With an
empty keep-list (`max_rows = 0`) the guarded `DELETE` is skipped and
`deleted_count` is `0`. -/
def cleanup_audit_log (max_rows : Nat) (db : DB) : CleanupResult × DB :=
  let total := db.audit.length
  if total ≤ max_rows then
    ({ success := true, deleted_count := 0, error := none }, db)
  else
    let keep_ids := (cleanupKeepList max_rows db).map (fun e => e.id)
    if keep_ids.isEmpty then
      ({ success := true, deleted_count := 0, error := none }, db)
    else
      let kept := db.audit.filter (fun e => e.id ∈ keep_ids)
      let removed := db.audit.filter (fun e => e.id ∉ keep_ids)
      ({ success := true, deleted_count := removed.length, error := none },
       { db with audit := kept })

/-- Result dictionary of a Telegram send helper
(`telegram_notify.send_text` / `send_photo`). -/
structure SendRes where
  success : Bool
  message_id : Option Nat
  deriving Repr, DecidableEq

/-- One outgoing Telegram call fired by `notify_shipment_if_received`. -/
inductive SendAction where
  | photo (url caption : String)
  | text (message : String)
  deriving Repr, DecidableEq

/-- `telegram_helpers._format_shipment_text`. -/
def formatShipmentText (s : Shipment) (is_update_image : Bool) : String :=
  let note := pyOrStr s.notes ""
  let recv_time := match s.received_time with | some t => toString t | none => ""
  let sent_time := toString s.sent_time
  let header := if is_update_image then "Cập nhật ảnh" else "Phiếu đã nhận"
  "<b>" ++ header ++ "</b>\n" ++
  "QR: " ++ s.qr_code ++ "\n" ++
  "IMEI: " ++ s.imei ++ "\n" ++
  "Thiết bị: " ++ s.device_name ++ "\n" ++
  "Lỗi / Tình trạng: " ++ s.capacity ++ "\n" ++
  "NCC: " ++ s.supplier ++ "\n" ++
  "Trạng thái: " ++ s.status ++ "\n" ++
  "Thời gian gửi: " ++ sent_time ++ "\n" ++
  "Thời gian nhận: " ++ recv_time ++ "\n" ++
  "Ghi chú: " ++ note

/-- `database.update_telegram_message`: `UPDATE ShipmentDetails SET
telegram_message_id = ? WHERE id = ?`. -/
def update_telegram_message (shipment_id : Nat) (message_id : Nat) (db : DB) : DB :=
  { db with
    shipments := db.shipments.map (fun r =>
      if r.id == shipment_id then { r with telegram_message_id := some message_id } else r) }

/-- `telegram_helpers.notify_shipment_if_received`.  The HTTP senders are
passed as functions; the returned trace lists the Telegram calls the code
fires, in order.  Faithful points: the shipment must exist and be in status
`'Đã nhận'`; the skip test is `already_sent and not (is_update_image and
image_url)` — the `force` parameter is *never consulted* in the body; multiple
images are split on `';'`, stripped, the first sent with the caption, the rest
captionless, with a text fallback when the first photo fails; a successful
send with a truthy `message_id` is persisted via `update_telegram_message`. -/
def notify_shipment_if_received (send_photo : String → String → SendRes)
    (send_text : String → SendRes) (shipment_id : Nat)
    (force is_update_image : Bool) (db : DB) :
    List SendAction × Option SendRes × DB :=
  match db.shipments.find? (fun s => s.id == shipment_id) with
  | none => ([], none, db)
  | some s =>
    if s.status != "Đã nhận" then ([], none, db)
    else
      let already_sent := pyTruthyNat s.telegram_message_id
      let has_image := pyTruthyStr s.image_url
      if already_sent && !(is_update_image && has_image) then ([], none, db)
      else
        let message_text := formatShipmentText s is_update_image
        let (actions, res) : List SendAction × SendRes :=
          if has_image then
            let image_urls :=
              (((s.image_url.getD "").splitOn ";").map String.trim).filter
                (fun u => u != "")
            match image_urls with
            | [] => ([SendAction.text message_text], send_text message_text)
            | u0 :: rest =>
              let r0 := send_photo u0 message_text
              if r0.success then
                (SendAction.photo u0 message_text ::
                   rest.map (fun u => SendAction.photo u ""), r0)
              else
                let images_text := String.intercalate "\n"
                  ((u0 :: rest).enum.map (fun p =>
                    "Ảnh " ++ toString (p.1 + 1) ++ ": " ++ p.2))
                let message_text2 := message_text ++ "\n\n" ++ images_text
                ([SendAction.photo u0 message_text, SendAction.text message_text2],
                 send_text message_text2)
          else ([SendAction.text message_text], send_text message_text)
        let db2 :=
          if res.success && pyTruthyNat res.message_id then
            update_telegram_message shipment_id (res.message_id.getD 0) db
          else db
        (actions, some res, db2)

/-- An entry of the `files_data` list handed to
`upload_multiple_files_to_drive` (bytes, target filename, MIME type and the
caller-assigned `index` tag). -/
structure UploadTask where
  file_bytes : List Nat
  filename : String
  mime_type : String
  index : Nat
  deriving Repr, DecidableEq

/-- Result dictionary of one upload, including the `index` tag that
`upload_single_file` attaches. -/
structure UploadResult where
  success : Bool
  error : Option String
  url : Option String
  id : Option String
  index : Nat
  deriving Repr, DecidableEq

/-- Outcome of the external Google Drive interaction for one task:
the `files().create` call succeeds with a file id, or
`upload_file_to_drive` catches an error and returns a failure dictionary, or
the worker raises so that `future.result()` throws in the gathering loop. -/
inductive DriveOutcome where
  | ok (fileId : String)
  | fail (msg : String)
  | raised (msg : String)
  deriving Repr, DecidableEq

/-- The result entry produced for one task: `upload_single_file` tags the
dictionary from `upload_file_to_drive` (which builds the
`uc?export=view&id=…` link on success) with the task's `index`; an exception
escaping the worker is turned into a `success: False` entry with the same
`index` by the `except` branch of the gathering loop. -/
def gatherResult (drive : UploadTask → DriveOutcome) (data : UploadTask) : UploadResult :=
  match drive data with
  | DriveOutcome.ok fid =>
    { success := true, error := none,
      url := some ("https://drive.google.com/uc?export=view&id=" ++ fid),
      id := some fid, index := data.index }
  | DriveOutcome.fail msg =>
    { success := false, error := some msg, url := none, id := none, index := data.index }
  | DriveOutcome.raised msg =>
    { success := false, error := some msg, url := none, id := none, index := data.index }

/-- The `results.sort(key=lambda x: x['index'])` order. -/
def uploadIndexLe (a b : UploadResult) : Prop := a.index ≤ b.index

instance : DecidableRel uploadIndexLe := fun a b => by
  unfold uploadIndexLe
  exact inferInstance

instance : IsTotal UploadResult uploadIndexLe := by
  constructor
  intro a b
  unfold uploadIndexLe
  omega

instance : IsTrans UploadResult uploadIndexLe := by
  constructor
  intro a b c
  unfold uploadIndexLe
  omega

/-- `drive_upload.upload_multiple_files_to_drive`: every task is submitted to
the thread pool and its result collected by the `as_completed` loop — whose
nondeterministic completion order is modelled by taking the already permuted
list `completed` of the submitted tasks (`max_workers` only affects
scheduling) — then the collected results are sorted back by `index`. -/
def upload_multiple_files_to_drive (drive : UploadTask → DriveOutcome)
    (completed : List UploadTask) : List UploadResult :=
  List.insertionSort uploadIndexLe (completed.map (gatherResult drive))

/-! Concrete fixtures used to evaluate the embedded operations. -/

/-- A template `ShipmentDetails` row. -/
def baseShipment : Shipment :=
  { id := 1, qr_code := "QR1", imei := "IMEI1", device_name := "iPhone 11",
    capacity := "64GB", supplier := "NCC1", status := "Đã gửi",
    request_type := "Sửa chữa dịch vụ", sent_time := 0, received_time := none,
    completed_time := none, created_by := "alice", updated_by := none,
    notes := none, image_url := none, telegram_message_id := none,
    store_name := none, reception_location := none, last_updated := 0,
    device_status_on_reception := none, repairer := none,
    repair_start_date := none, repair_completion_date := none,
    ycsc_completion_date := none, repair_notes := none,
    quality_check_notes := none, repair_image_url := none,
    quotation_notes := none }

/-- The freshly initialised database. -/
def emptyDB : DB :=
  { shipments := [], audit := [], nextAuditId := 1, slips := [], slipItems := [] }

/-- C1 fixture: one shipment stale in `'Đã nhận'` for more than one hour at
`now = 3700`. -/
def dbC1 : DB :=
  { emptyDB with shipments := [{ baseShipment with status := "Đã nhận", last_updated := 100 }] }

/-- C2 fixture: a slip with two member ids, only one of which matches a
shipment row. -/
def dbC2 : DB :=
  { emptyDB with
    shipments := [{ baseShipment with id := 10, qr_code := "T-001" }]
    slips := [{ id := 1, transfer_code := "CHG-001", status := "Đang chuyển",
                created_by := "alice", completed_by := none, created_at := 0,
                completed_at := none, image_url := none, notes := none }]
    slipItems := [{ transfer_slip_id := 1, shipment_id := 10 },
                  { transfer_slip_id := 1, shipment_id := 11 }] }

/-- C3 fixture: a received shipment whose Telegram message reference is
already set. -/
def shipC3 : Shipment :=
  { baseShipment with status := "Đã nhận", telegram_message_id := some 7 }

/-- C3 fixture database. -/
def dbC3 : DB := { emptyDB with shipments := [shipC3] }

/-- C3 fixture: the same shipment before any Telegram message was sent. -/
def dbC3fresh : DB :=
  { emptyDB with shipments := [{ shipC3 with telegram_message_id := none }] }

/-- A Telegram photo sender that always succeeds with message id 99. -/
def okPhoto : String → String → SendRes :=
  fun _ _ => { success := true, message_id := some 99 }

/-- A Telegram text sender that always succeeds with message id 99. -/
def okText : String → SendRes :=
  fun _ => { success := true, message_id := some 99 }

/-- C4 fixture: a shipment that already has a stored image URL. -/
def dbC4 : DB :=
  { emptyDB with shipments := [{ baseShipment with image_url := some "http://a" }] }

/-- C5 fixture: a slip whose single member shipment has `last_updated = 5`. -/
def dbC5 : DB :=
  { emptyDB with
    shipments := [{ baseShipment with id := 10, last_updated := 5 }]
    slips := [{ id := 1, transfer_code := "CHG-002", status := "Đang chuyển",
                created_by := "alice", completed_by := none, created_at := 0,
                completed_at := none, image_url := none, notes := none }]
    slipItems := [{ transfer_slip_id := 1, shipment_id := 10 }] }

/-- C6 fixture: a shipment whose `received_time` is already set. -/
def dbC6 : DB :=
  { emptyDB with
    shipments := [{ baseShipment with status := "Nhập kho", received_time := some 100 }] }

/-- C7 fixture shipment. -/
def shipC7 : Shipment := { baseShipment with qr_code := "QR7", status := "Đã gửi" }

/-- C7 fixture database. -/
def dbC7 : DB := { emptyDB with shipments := [shipC7], nextAuditId := 4 }

/-- C8 fixture: a single audit row, for the `max_rows = 0` edge. -/
def entC8 : AuditEntry :=
  { id := 1, shipment_id := 1, action := "CREATED", old_value := none,
    new_value := some "tạo phiếu", changed_by := "alice", timestamp := 10 }

/-- C8 fixture database with one audit entry. -/
def dbC8 : DB := { emptyDB with audit := [entC8] }

/-- C8 witness fixture: three audit entries with distinct ids, out of
timestamp order, including a timestamp tie between ids 1 and 3. -/
def dbC8w : DB :=
  { emptyDB with audit :=
      [{ entC8 with id := 1, timestamp := 10 },
       { entC8 with id := 2, timestamp := 30 },
       { entC8 with id := 3, timestamp := 10 }] }

/-- C9 fixture: two upload tasks with indices 1 and 2. -/
def taskC9a : UploadTask :=
  { file_bytes := [1, 2, 3], filename := "QR1_received_a.jpg",
    mime_type := "image/jpeg", index := 1 }

/-- C9 fixture: second task. -/
def taskC9b : UploadTask :=
  { file_bytes := [4, 5], filename := "QR1_received_b.jpg",
    mime_type := "image/jpeg", index := 2 }

/-- C9 fixture drive oracle: the first task uploads fine, the second one
fails. -/
def driveC9 : UploadTask → DriveOutcome :=
  fun t => if t.index == 1 then DriveOutcome.ok "FID1" else DriveOutcome.fail "quota"

/-- C10 fixture: a slip row that has no member items. -/
def dbC10 : DB :=
  { emptyDB with
    shipments := [baseShipment]
    slips := [{ id := 1, transfer_code := "CHG-003", status := "Đang chuyển",
                created_by := "alice", completed_by := none, created_at := 0,
                completed_at := none, image_url := none, notes := none }] }

/-- The slip row rewrite performed by `update_transfer_slip` when
`complete_transfer` calls it with `status='Đã hoàn thành'`,
`completed_by=current_user` and the optional image/notes: the matching slip is
marked completed (`completed_at` auto-set because the status is truthy and
differs from `'Đang chuyển'`), truthy parameters overwrite their columns. -/
def markSlipCompleted (tsid : Nat) (img : Option String) (user : String)
    (notes : Option String) (now : Nat) (db : DB) : DB :=
  { db with slips := db.slips.map (fun ts =>
      if ts.id == tsid then
        { ts with status := "Đã hoàn thành"
                  image_url := if pyTruthyStr img then img else ts.image_url
                  completed_by := if pyTruthyStr (some user) then some user
                    else ts.completed_by
                  notes := if pyTruthyStr notes then notes else ts.notes
                  completed_at := some now }
      else ts) }

/-! Claim theorems. -/

/-- C1: the auto-escalation sweep escalates stale rows (for `dbC1`, stale in
`'Đã nhận'` for exactly one hour at `now = 3700`, the row moves to
`'Nhập kho xử lý'` and `updated_count = 1`), but — contrary to the claim —
`auto_update_status_after_1hour` contains no `log_audit` call at all, so no
run of the sweep ever adds an audit entry: `AuditLog` and its id counter are
unchanged for every database and every clock value. -/
theorem auto_escalation_writes_no_audit :
    (∀ (now : Nat) (db : DB),
        ((auto_update_status_after_1hour now db).2).audit = db.audit ∧
        ((auto_update_status_after_1hour now db).2).nextAuditId = db.nextAuditId) ∧
    (auto_update_status_after_1hour 3700 dbC1).1.updated_count = 1 ∧
    ((auto_update_status_after_1hour 3700 dbC1).2).shipments.map (fun r => r.status) =
      ["Nhập kho xử lý"] ∧
    ((auto_update_status_after_1hour 3700 dbC1).2).audit = [] := by
  refine ⟨fun now db => ⟨rfl, rfl⟩, ?_, ?_, ?_⟩ <;> decide

/-- C10: cascading a status onto a transfer slip with no member items is
rejected: the result is `success = False`, `updated_count = 0` with the
`'Không có máy nào trong phiếu chuyển'` error, and the database is returned
unchanged. -/
theorem transfer_cascade_empty_slip (tsid : Nat) (st : String) (db : DB)
    (h : transferSlipMemberIds tsid db = []) :
    update_transfer_slip_shipments_status tsid st db =
      ({ success := false, updated_count := 0,
         error := some "Không có máy nào trong phiếu chuyển" }, db) := by
  simp [update_transfer_slip_shipments_status, h]

/-- C10 witness: the empty slip of `dbC10` is rejected and the database is
untouched. -/
theorem transfer_cascade_empty_slip_witness :
    update_transfer_slip_shipments_status 1 "Đã giao" dbC10 =
      ({ success := false, updated_count := 0,
         error := some "Không có máy nào trong phiếu chuyển" }, dbC10) :=
  transfer_cascade_empty_slip 1 "Đã giao" dbC10 (by decide)

/-- C2 counterexample: completing the two-member slip of `dbC2` where member
`11` has no shipment row yields `updated_count = 1` and `success = True`, but
the returned dictionary carries no failed count of any spelling — the claimed
`{updatedCount: 1, failedCount: 1}` shape does not exist in the code. -/
theorem transfer_cascade_no_failed_count :
    (update_transfer_slip_shipments_status 1 "Đã giao" dbC2).1.updated_count = 1 ∧
    (update_transfer_slip_shipments_status 1 "Đã giao" dbC2).1.success = true ∧
    "failedCount" ∉ updateTransferSlipShipmentsStatusResultKeys ∧
    "failed_count" ∉ updateTransferSlipShipmentsStatusResultKeys := by
  refine ⟨?_, ?_, ?_, ?_⟩ <;> decide

/-- C3: evaluating `notify_shipment_if_received` at the failing input — the
received shipment of `dbC3` whose `telegram_message_id` is already set, called
with `force = True` and `is_update_image = False` — sends nothing and leaves
the database unchanged; indeed the result does not depend on `force` at all,
because the body never reads the parameter, contradicting its own docstring
(`force: send even if already sent before`).  The same call on `dbC3fresh`
(no message id yet) sends exactly one message. -/
theorem notify_force_is_ignored :
    (∀ force : Bool,
        notify_shipment_if_received okPhoto okText 1 force false dbC3 =
          ([], none, dbC3)) ∧
    (notify_shipment_if_received okPhoto okText 1 false false dbC3fresh).1.length = 1 := by
  refine ⟨fun force => ?_, ?_⟩
  · cases force <;> decide
  · decide

/-- C4 counterexample: on the shipment of `dbC4` (stored image `http://a`),
`update_shipment` with `image_url = 'http://b'` succeeds and leaves the row
with exactly `http://b` — the existing URL was replaced, not appended. -/
theorem update_shipment_replaces_image :
    ((update_shipment 1 { image_url := some "http://b", updated_by := some "bob" }
        5 dbC4).1.success = true) ∧
    ((update_shipment 1 { image_url := some "http://b", updated_by := some "bob" }
        5 dbC4).2.shipments.map (fun r => r.image_url) = [some "http://b"]) ∧
    some "http://b" ≠ some ("http://a" ++ ";" ++ "http://b") := by
  refine ⟨?_, ?_, ?_⟩ <;> decide

/-- C5 counterexample: the transfer-slip cascade on `dbC5` succeeds and
actually changes the member's status (`updated_count = 1`), yet the member's
`last_updated` is still its old value `5` — the cascade's `UPDATE` sets only
`status` and `updated_by`, so this successful mutation does not refresh
`last_updated`. -/
theorem cascade_does_not_refresh_last_updated :
    ((update_transfer_slip_shipments_status 1 "Đã giao" dbC5).1.success = true) ∧
    ((update_transfer_slip_shipments_status 1 "Đã giao" dbC5).1.updated_count = 1) ∧
    ((update_transfer_slip_shipments_status 1 "Đã giao" dbC5).2.shipments.map
        (fun r => r.status) = ["Đã giao"]) ∧
    ((update_transfer_slip_shipments_status 1 "Đã giao" dbC5).2.shipments.map
        (fun r => r.last_updated) = [5]) := by
  refine ⟨?_, ?_, ?_, ?_⟩ <;> decide

/-- C6 counterexample: the shipment of `dbC6` already has
`received_time = 100`, yet a status change to `'Đã nhận'` at `now = 200`
overwrites it with `200` — the code sets `received_time` unconditionally on
entering the received status, not only when unset. -/
theorem received_time_overwritten :
    ((update_shipment_status "QR1" "Đã nhận" "bob" none none 200 dbC6).1.success = true) ∧
    ((update_shipment_status "QR1" "Đã nhận" "bob" none none 200 dbC6).2.shipments.map
        (fun r => r.received_time) = [some 200]) := by
  refine ⟨?_, ?_⟩ <;> decide

/-- C8 counterexample: on the one-entry log of `dbC8`, `cleanup_audit_log`
with `max_rows = 0` retains the entry (the `if keep_ids:` guard skips the
`DELETE`) and reports `deleted_count = 0`, instead of retaining exactly the
`max_rows = 0` most recent entries and deleting the rest. -/
theorem cleanup_max_rows_zero_keeps_all :
    ((cleanup_audit_log 0 dbC8).2.audit = [entC8]) ∧
    ((cleanup_audit_log 0 dbC8).1.deleted_count = 0) ∧
    ((cleanup_audit_log 0 dbC8).2.audit.length ≠ 0) := by
  refine ⟨?_, ?_, ?_⟩ <;> decide

/-- C7: a status change on an existing shipment creates exactly one new
`AuditLog` row — the new log is the old one with a single appended
`STATUS_CHANGED` entry whose `old_value` is the prior status, `new_value` the
requested status, actor the caller — while an unknown `qr_code` returns the
`'Phiếu không tồn tại'` error and writes nothing. -/
theorem status_change_audits_once (qr st user : String) (notes img : Option String)
    (now : Nat) (db : DB) :
    (db.shipments.find? (fun s => s.qr_code == qr) = none →
       update_shipment_status qr st user notes img now db =
         ({ success := false, error := some "Phiếu không tồn tại" }, db)) ∧
    (∀ cur, db.shipments.find? (fun s => s.qr_code == qr) = some cur →
       (update_shipment_status qr st user notes img now db).1.success = true ∧
       ((update_shipment_status qr st user notes img now db).2).audit =
         db.audit ++
           [{ id := db.nextAuditId, shipment_id := cur.id, action := "STATUS_CHANGED",
              old_value := some cur.status, new_value := some st, changed_by := user,
              timestamp := now }] ∧
       ((update_shipment_status qr st user notes img now db).2).nextAuditId =
         db.nextAuditId + 1) := by
  constructor
  · intro h
    simp [update_shipment_status, h]
  · intro cur h
    simp [update_shipment_status, h, log_audit]

/-- C7 witness: changing the status of `QR7` in `dbC7` appends exactly the
expected `STATUS_CHANGED` entry. -/
theorem status_change_audits_once_witness :
    ((update_shipment_status "QR7" "Đã nhận" "bob" none none 7 dbC7).2).audit =
      dbC7.audit ++
        [{ id := 4, shipment_id := 1, action := "STATUS_CHANGED",
           old_value := some "Đã gửi", new_value := some "Đã nhận",
           changed_by := "bob", timestamp := 7 }] :=
  ((status_change_audits_once "QR7" "Đã nhận" "bob" none none 7 dbC7).2
    shipC7 (by decide)).2.1

/-- The member loop of the cascade never changes any row's `last_updated`. -/
theorem cascade_foldl_last_updated (st : String) (cr : Option String) :
    ∀ (ids : List Nat) (s : List Shipment) (c : Nat),
      ((ids.foldl (cascadeStep st cr) (s, c)).1).map (fun r => r.last_updated) =
        s.map (fun r => r.last_updated) := by
  intro ids
  induction ids with
  | nil => intro s c; rfl
  | cons sid rest ih =>
    intro s c
    rw [List.foldl_cons]
    have hstep : cascadeStep st cr (s, c) sid =
        (s.map (fun r => if r.id == sid
            then { r with status := st, updated_by := cr } else r),
         c + s.countP (fun r => r.id == sid)) := rfl
    rw [hstep, ih, List.map_map]
    apply List.map_congr_left
    intro r _
    dsimp only [Function.comp]
    split <;> rfl

/-- The member loop of the cascade accumulates, per member id, the number of
rows carrying that id; row ids are never modified, so the counts can be read
off the initial table. -/
theorem cascade_foldl_count (st : String) (cr : Option String) :
    ∀ (ids : List Nat) (s : List Shipment) (c : Nat),
      (ids.foldl (cascadeStep st cr) (s, c)).2 =
        c + (ids.map (fun sid => s.countP (fun r => r.id == sid))).sum := by
  intro ids
  induction ids with
  | nil => intro s c; simp
  | cons sid rest ih =>
    intro s c
    rw [List.foldl_cons]
    have hstep : cascadeStep st cr (s, c) sid =
        (s.map (fun r => if r.id == sid
            then { r with status := st, updated_by := cr } else r),
         c + s.countP (fun r => r.id == sid)) := rfl
    rw [hstep, ih]
    have hcnt : ∀ sid' : Nat,
        ((s.map (fun r => if r.id == sid
            then { r with status := st, updated_by := cr } else r)).countP
          (fun r => r.id == sid')) = s.countP (fun r => r.id == sid') := by
      intro sid'
      rw [List.countP_map]
      congr 1
      funext r
      by_cases hid : r.id == sid <;> simp [hid, Function.comp]
    rw [List.map_congr_left (fun sid' _ => hcnt sid')]
    simp
    omega

/-- The shipments table produced by a successful `update_shipment_status`:
every row matching the `qr_code` gets the `update_fields` assignment, the
others are untouched. -/
theorem update_status_shipments_eq (qr st user : String) (notes img : Option String)
    (now : Nat) (db : DB) (cur : Shipment)
    (h : db.shipments.find? (fun s => s.qr_code == qr) = some cur) :
    (update_shipment_status qr st user notes img now db).2.shipments =
      db.shipments.map (fun r => if r.qr_code == qr
        then applyStatusFields cur st user notes img now r else r) := by
  simp [update_shipment_status, h, log_audit]

/-- C6 (amended): on a status change, *every* status-keyed timestamp is
assigned unconditionally — entering `'Đã nhận'` sets `received_time = now`
even when it was already set, exactly like `'Đang sửa chữa'` /
`'Hoàn thành sửa chữa'` / `'Hoàn thành YCSC'` overwrite their respective
timestamps on each re-entry; unmatched rows keep their values. -/
theorem status_entry_timestamps_overwrite
    (qr user : String) (notes img : Option String) (now : Nat) (db : DB) (cur : Shipment)
    (h : db.shipments.find? (fun s => s.qr_code == qr) = some cur) :
    ((update_shipment_status qr "Đã nhận" user notes img now db).2.shipments.map
        (fun r => r.received_time) =
      db.shipments.map (fun r => if r.qr_code == qr then some now else r.received_time)) ∧
    ((update_shipment_status qr "Đang sửa chữa" user notes img now db).2.shipments.map
        (fun r => r.repair_start_date) =
      db.shipments.map (fun r => if r.qr_code == qr then some now else r.repair_start_date)) ∧
    ((update_shipment_status qr "Hoàn thành sửa chữa" user notes img now db).2.shipments.map
        (fun r => r.repair_completion_date) =
      db.shipments.map (fun r =>
        if r.qr_code == qr then some now else r.repair_completion_date)) ∧
    ((update_shipment_status qr "Hoàn thành YCSC" user notes img now db).2.shipments.map
        (fun r => (r.completed_time, r.ycsc_completion_date)) =
      db.shipments.map (fun r => if r.qr_code == qr then (some now, some now)
        else (r.completed_time, r.ycsc_completion_date))) := by
  refine ⟨?_, ?_, ?_, ?_⟩ <;>
    (rw [update_status_shipments_eq _ _ _ _ _ _ _ _ h, List.map_map]
     apply List.map_congr_left
     intro r _
     dsimp only [Function.comp]
     split <;> simp [applyStatusFields])

/-- C6 amended witness: the already-received shipment of `dbC6` gets its
`received_time` overwritten with the new clock value `200`. -/
theorem status_entry_timestamps_overwrite_witness :
    ((update_shipment_status "QR1" "Đã nhận" "bob" none none 200 dbC6).2.shipments.map
        (fun r => r.received_time) =
      dbC6.shipments.map (fun r => if r.qr_code == "QR1" then some 200
        else r.received_time)) :=
  (status_entry_timestamps_overwrite "QR1" "bob" none none 200 dbC6
    { baseShipment with status := "Nhập kho", received_time := some 100 } (by decide)).1

/-- C4 (amended): the two mutation paths disagree — `update_shipment_status`
appends a provided image to the stored `';'`-joined list, while the general
edit `update_shipment` assigns `image_url = ?` outright, replacing whatever
was stored. -/
theorem image_url_append_or_replace
    (qr st user : String) (notes img : Option String) (now : Nat) (db : DB) (cur : Shipment)
    (h : db.shipments.find? (fun s => s.qr_code == qr) = some cur)
    (himg : pyTruthyStr img = true) (hcur : pyTruthyStr cur.image_url = true)
    (sid : Nat) (a : UpdateShipmentArgs) (u : String) (now2 : Nat) (db2 : DB)
    (hq : a.qr_code = none) (hi : a.image_url = some u) :
    ((update_shipment_status qr st user notes img now db).2.shipments.map
        (fun r => r.image_url) =
      db.shipments.map (fun r =>
        if r.qr_code == qr then some (cur.image_url.getD "" ++ ";" ++ img.getD "")
        else r.image_url)) ∧
    (update_shipment sid a now2 db2).1.success = true ∧
    ((update_shipment sid a now2 db2).2.shipments.map (fun r => r.image_url) =
      db2.shipments.map (fun r => if r.id == sid then some u else r.image_url)) := by
  have hup : hasAnyUpdate a = true := by
    simp [hasAnyUpdate, hi]
  refine ⟨?_, ?_, ?_⟩
  · rw [update_status_shipments_eq _ _ _ _ _ _ _ _ h, List.map_map]
    apply List.map_congr_left
    intro r _
    dsimp only [Function.comp]
    split <;> simp [applyStatusFields, himg, hcur]
  · simp [update_shipment, hup, hq]
  · rw [show (update_shipment sid a now2 db2).2.shipments =
        db2.shipments.map (fun r =>
          if r.id == sid then applyUpdateShipment a now2 r else r) by
      simp [update_shipment, hup, hq, log_audit]]
    rw [List.map_map]
    apply List.map_congr_left
    intro r _
    dsimp only [Function.comp]
    split <;> simp [applyUpdateShipment, hi, setOpt]

/-- C4 amended witness: on `dbC4`, a status-change upload of `http://c`
appends to the stored `http://a`, while the general edit replacing with
`http://b` discards `http://a`. -/
theorem image_url_append_or_replace_witness :
    ((update_shipment_status "QR1" "Đã nhận" "bob" none
          (some "http://c") 9 dbC4).2.shipments.map (fun r => r.image_url) =
      dbC4.shipments.map (fun r =>
        if r.qr_code == "QR1" then some ("http://a" ++ ";" ++ "http://c")
        else r.image_url)) ∧
    (update_shipment 1 { image_url := some "http://b", updated_by := some "bob" }
        5 dbC4).1.success = true ∧
    ((update_shipment 1 { image_url := some "http://b", updated_by := some "bob" }
        5 dbC4).2.shipments.map (fun r => r.image_url) =
      dbC4.shipments.map (fun r => if r.id == 1 then some "http://b" else r.image_url)) :=
  image_url_append_or_replace "QR1" "Đã nhận" "bob" none (some "http://c") 9 dbC4
    { baseShipment with image_url := some "http://a" } (by decide) (by decide) (by decide)
    1 { image_url := some "http://b", updated_by := some "bob" } "http://b" 5 dbC4
    rfl rfl

/-- C5 (amended): a successful `update_shipment_status` and a successful
`update_shipment` both set the affected row's `last_updated` to `now`
(hence, applied at non-decreasing clock values, `last_updated` never
decreases on those paths); the transfer-slip cascade however sets only
`status` and `updated_by`, leaving every row's `last_updated` exactly as it
was — the claimed invariant does not extend to the cascade. -/
theorem last_updated_refresh_semantics
    (qr st user : String) (notes img : Option String) (now : Nat) (db : DB) (cur : Shipment)
    (h : db.shipments.find? (fun s => s.qr_code == qr) = some cur)
    (sid : Nat) (a : UpdateShipmentArgs) (now2 : Nat) (db2 : DB)
    (hs : (update_shipment sid a now2 db2).1.success = true)
    (tsid : Nat) (st3 : String) (db3 : DB) :
    ((update_shipment_status qr st user notes img now db).2.shipments.map
        (fun r => r.last_updated) =
      db.shipments.map (fun r => if r.qr_code == qr then now else r.last_updated)) ∧
    ((update_shipment sid a now2 db2).2.shipments.map (fun r => r.last_updated) =
      db2.shipments.map (fun r => if r.id == sid then now2 else r.last_updated)) ∧
    ((update_transfer_slip_shipments_status tsid st3 db3).2.shipments.map
        (fun r => r.last_updated) =
      db3.shipments.map (fun r => r.last_updated)) := by
  refine ⟨?_, ?_, ?_⟩
  · rw [update_status_shipments_eq _ _ _ _ _ _ _ _ h, List.map_map]
    apply List.map_congr_left
    intro r _
    dsimp only [Function.comp]
    split <;> rfl
  · cases hup : hasAnyUpdate a with
    | false => simp [update_shipment, hup] at hs
    | true =>
      cases hq : a.qr_code with
      | none =>
        rw [show (update_shipment sid a now2 db2).2.shipments =
            db2.shipments.map (fun r =>
              if r.id == sid then applyUpdateShipment a now2 r else r) by
          simp [update_shipment, hup, hq, log_audit]]
        rw [List.map_map]
        apply List.map_congr_left
        intro r _
        dsimp only [Function.comp]
        split <;> rfl
      | some q =>
        cases hv : (db2.shipments.any (fun s => s.id == sid)) &&
            (db2.shipments.any (fun r => r.id != sid && r.qr_code == q)) with
        | true => simp [update_shipment, hup, hq, hv] at hs
        | false =>
          rw [show (update_shipment sid a now2 db2).2.shipments =
              db2.shipments.map (fun r =>
                if r.id == sid then applyUpdateShipment a now2 r else r) by
            simp [update_shipment, hup, hq, hv, log_audit]]
          rw [List.map_map]
          apply List.map_congr_left
          intro r _
          dsimp only [Function.comp]
          split <;> rfl
  · cases hub : (transferSlipMemberIds tsid db3).isEmpty with
    | true => simp [update_transfer_slip_shipments_status, List.isEmpty_iff.mp hub]
    | false =>
      simp only [update_transfer_slip_shipments_status]
      rw [if_neg (by simp [hub])]
      exact cascade_foldl_last_updated st3 _ (transferSlipMemberIds tsid db3)
        db3.shipments 0

/-- C5 amended witness: a direct status change on `dbC6` stamps
`last_updated = 200`, while the cascade on `dbC5` leaves `last_updated`
untouched. -/
theorem last_updated_refresh_semantics_witness :
    ((update_shipment_status "QR1" "Đã nhận" "bob" none none
          200 dbC6).2.shipments.map (fun r => r.last_updated) =
      dbC6.shipments.map (fun r => if r.qr_code == "QR1" then 200
        else r.last_updated)) ∧
    ((update_shipment 1 { image_url := some "http://b", updated_by := some "bob" }
        5 dbC6).2.shipments.map (fun r => r.last_updated) =
      dbC6.shipments.map (fun r => if r.id == 1 then 5 else r.last_updated)) ∧
    ((update_transfer_slip_shipments_status 1 "Đã giao" dbC5).2.shipments.map
        (fun r => r.last_updated) =
      dbC5.shipments.map (fun r => r.last_updated)) :=
  last_updated_refresh_semantics "QR1" "Đã nhận" "bob" none none 200 dbC6
    { baseShipment with status := "Nhập kho", received_time := some 100 } (by decide)
    1 { image_url := some "http://b", updated_by := some "bob" } 5 dbC6 (by decide)
    1 "Đã giao" dbC5


/-- The slip update of `complete_transfer` always succeeds and produces
exactly the `markSlipCompleted` rewrite. -/
theorem update_transfer_slip_complete_eq (tsid : Nat) (img : Option String)
    (user : String) (notes : Option String) (now : Nat) (db : DB) :
    update_transfer_slip tsid (some "Đã hoàn thành") img (some user) notes now db =
      ({ success := true, error := none }, markSlipCompleted tsid img user notes now db) := by
  have h1 : pyTruthyStr (some "Đã hoàn thành") = true := by decide
  simp [update_transfer_slip, markSlipCompleted, h1, Option.getD]

/-- C2 (amended): completing a non-empty slip is not all-or-nothing in the
sense that a member id matching no shipment row simply contributes zero to
`updated_count` while the remaining members are still updated; but the
cascade reports only the aggregate `updated_count` — its result dictionary
has no failed-count key of any spelling — and the slip row itself is marked
`'Đã hoàn thành'` by the preceding `update_transfer_slip` call regardless of
how many members matched. -/
theorem transfer_cascade_partial_counts
    (tsid : Nat) (st : String) (img : Option String) (user : String)
    (notes : Option String) (now : Nat) (db : DB)
    (h : transferSlipMemberIds tsid db ≠ []) :
    (complete_transfer tsid st img user notes now db).1.success = true ∧
    (complete_transfer tsid st img user notes now db).2.1 =
      some { success := true,
             updated_count := ((transferSlipMemberIds tsid db).map
               (fun sid => db.shipments.countP (fun r => r.id == sid))).sum,
             error := none } ∧
    "failedCount" ∉ updateTransferSlipShipmentsStatusResultKeys ∧
    (complete_transfer tsid st img user notes now db).2.2.slips =
      (markSlipCompleted tsid img user notes now db).slips := by
  have hmem : transferSlipMemberIds tsid (markSlipCompleted tsid img user notes now db) =
      transferSlipMemberIds tsid db := rfl
  have hship : (markSlipCompleted tsid img user notes now db).shipments =
      db.shipments := rfl
  have hcasc := cascade_foldl_count st
    (((markSlipCompleted tsid img user notes now db).slips.find?
        (fun ts => ts.id == tsid)).map (fun ts => ts.created_by))
    (transferSlipMemberIds tsid db) db.shipments 0
  refine ⟨?_, ?_, by decide, ?_⟩ <;>
    simp [complete_transfer, update_transfer_slip_complete_eq,
      update_transfer_slip_shipments_status, hmem, hship, h, hcasc]

/-- C2 amended witness: completing the slip of `dbC2` (members `10` and `11`,
of which only `10` exists) succeeds with `updated_count = 1` and no failed
count, and the slip row itself is marked `'Đã hoàn thành'`. -/
theorem transfer_cascade_partial_counts_witness :
    (complete_transfer 1 "Đã giao" none "alice" none 50 dbC2).1.success = true ∧
    (complete_transfer 1 "Đã giao" none "alice" none 50 dbC2).2.1 =
      some { success := true,
             updated_count := ((transferSlipMemberIds 1 dbC2).map
               (fun sid => dbC2.shipments.countP (fun r => r.id == sid))).sum,
             error := none } ∧
    "failedCount" ∉ updateTransferSlipShipmentsStatusResultKeys ∧
    (complete_transfer 1 "Đã giao" none "alice" none 50 dbC2).2.2.slips =
      (markSlipCompleted 1 none "alice" none 50 dbC2).slips :=
  transfer_cascade_partial_counts 1 "Đã giao" none "alice" none 50 dbC2 (by decide)

/-- `upload_single_file` tags every result with the task's own `index`,
whatever the drive outcome. -/
theorem gatherResult_index (drive : UploadTask → DriveOutcome) (t : UploadTask) :
    (gatherResult drive t).index = t.index := by
  unfold gatherResult
  cases drive t <;> rfl

/-- A `≤`-by-index sorted permutation of a strictly-increasing-by-index list
is that list itself. -/
theorem sorted_le_perm_of_sorted_lt_eq :
    ∀ {l₂ l₁ : List UploadResult}, l₁.Perm l₂ → l₁.Sorted uploadIndexLe →
      l₂.Pairwise (fun a b => a.index < b.index) → l₁ = l₂ := by
  intro l₂
  induction l₂ with
  | nil =>
    intro l₁ hp _ _
    exact hp.eq_nil
  | cons b t ih =>
    intro l₁ hp hs₁ hs₂
    cases l₁ with
    | nil =>
      exact absurd hp.symm.eq_nil (by simp)
    | cons a s =>
      have hab : a = b := by
        have ha2 : a ∈ b :: t := hp.subset (List.mem_cons_self a s)
        rcases List.mem_cons.mp ha2 with h1 | h2
        · exact h1
        · exfalso
          have hba : b.index < a.index := (List.pairwise_cons.mp hs₂).1 a h2
          have hb1 : b ∈ a :: s := hp.symm.subset (List.mem_cons_self b t)
          rcases List.mem_cons.mp hb1 with h3 | h4
          · rw [h3] at hba
            omega
          · have hle : a.index ≤ b.index := (List.sorted_cons.mp hs₁).1 b h4
            omega
      rw [hab] at hp hs₁ ⊢
      rw [ih hp.cons_inv (List.sorted_cons.mp hs₁).2 (List.pairwise_cons.mp hs₂).2]

/-- C9: for every completion order (`completed` is an arbitrary permutation of
the submitted tasks), `upload_multiple_files_to_drive` returns exactly as many
results as tasks; the result indices are exactly the input indices; a task
whose upload does not succeed (drive failure or worker exception) contributes
a `success = false` entry carrying its original index, siblings untouched;
and when the input indices are strictly increasing the final sort restores the
results to input order. -/
theorem upload_all_results (drive : UploadTask → DriveOutcome)
    (tasks completed : List UploadTask) (hperm : completed.Perm tasks) :
    (upload_multiple_files_to_drive drive completed).length = tasks.length ∧
    ((upload_multiple_files_to_drive drive completed).map (fun r => r.index)).Perm
      (tasks.map (fun t => t.index)) ∧
    (∀ t ∈ tasks, (∀ fid, drive t ≠ DriveOutcome.ok fid) →
       gatherResult drive t ∈ upload_multiple_files_to_drive drive completed ∧
       (gatherResult drive t).success = false ∧
       (gatherResult drive t).index = t.index) ∧
    (tasks.Pairwise (fun t1 t2 => t1.index < t2.index) →
       upload_multiple_files_to_drive drive completed =
         tasks.map (gatherResult drive)) := by
  have hperm2 : (upload_multiple_files_to_drive drive completed).Perm
      (tasks.map (gatherResult drive)) :=
    (List.perm_insertionSort uploadIndexLe _).trans (hperm.map _)
  refine ⟨?_, ?_, ?_, ?_⟩
  · rw [hperm2.length_eq, List.length_map]
  · have hmapped := hperm2.map (fun r => r.index)
    rw [List.map_map] at hmapped
    have heq : List.map ((fun r => r.index) ∘ gatherResult drive) tasks =
        List.map (fun t => t.index) tasks :=
      List.map_congr_left (fun t _ => gatherResult_index drive t)
    rw [heq] at hmapped
    exact hmapped
  · intro t ht hfail
    refine ⟨(hperm2.mem_iff).mpr (List.mem_map_of_mem _ ht), ?_,
      gatherResult_index drive t⟩
    unfold gatherResult
    cases hd : drive t with
    | ok fid => exact absurd hd (hfail fid)
    | fail msg => rfl
    | raised msg => rfl
  · intro hsorted
    apply sorted_le_perm_of_sorted_lt_eq hperm2
      (List.sorted_insertionSort uploadIndexLe _)
    rw [List.pairwise_map]
    refine hsorted.imp ?_
    intro a b hab
    rw [gatherResult_index, gatherResult_index]
    exact hab

/-- C9 witness: two tasks completing in reversed order, the second of which
fails on Drive, still produce both results restored to input order. -/
theorem upload_all_results_witness :
    upload_multiple_files_to_drive driveC9 [taskC9b, taskC9a] =
      [taskC9a, taskC9b].map (gatherResult driveC9) :=
  (upload_all_results driveC9 [taskC9a, taskC9b] [taskC9b, taskC9a]
    (List.Perm.swap taskC9a taskC9b [])).2.2.2 (by decide)

/-- A predicate holding exactly on the first `n` positions filters to the
`take`. -/
theorem filter_take_of_forall {α : Type} (p : α → Bool) (l : List α) (n : Nat)
    (h1 : ∀ e ∈ l.take n, p e = true) (h2 : ∀ e ∈ l.drop n, p e = false) :
    l.filter p = l.take n := by
  conv_lhs => rw [← List.take_append_drop n l]
  rw [List.filter_append, List.filter_eq_self.mpr h1,
    List.filter_eq_nil_iff.mpr (fun a ha => by simp [h2 a ha]), List.append_nil]

/-- A predicate holding exactly on the positions past `n` filters to the
`drop`. -/
theorem filter_drop_of_forall {α : Type} (q : α → Bool) (l : List α) (n : Nat)
    (h1 : ∀ e ∈ l.take n, q e = false) (h2 : ∀ e ∈ l.drop n, q e = true) :
    l.filter q = l.drop n := by
  conv_lhs => rw [← List.take_append_drop n l]
  rw [List.filter_append, List.filter_eq_nil_iff.mpr (fun a ha => by simp [h1 a ha]),
    List.filter_eq_self.mpr h2, List.nil_append]

/-- C8 (amended): with pairwise-distinct audit ids (the `AUTOINCREMENT`
primary key) and `max_rows ≥ 1`, `cleanup_audit_log` is a no-op reporting `0`
when the log does not exceed `max_rows`, and otherwise reports
`deleted_count = total - max_rows` and retains exactly the `max_rows` top
entries of the `ORDER BY timestamp DESC, id DESC` order (most recent first,
timestamp ties broken towards the larger id): the surviving log is a
permutation of `cleanupKeepList` and every survivor is at least as recent
(in that order) as every deleted entry. -/
theorem cleanup_audit_log_retains_most_recent (db : DB) (max_rows : Nat)
    (hnd : (db.audit.map (fun e => e.id)).Nodup) (hpos : 1 ≤ max_rows) :
    (db.audit.length ≤ max_rows →
       cleanup_audit_log max_rows db =
         ({ success := true, deleted_count := 0, error := none }, db)) ∧
    (max_rows < db.audit.length →
       (cleanup_audit_log max_rows db).1.deleted_count = db.audit.length - max_rows ∧
       ((cleanup_audit_log max_rows db).2).audit.length = max_rows ∧
       ((cleanup_audit_log max_rows db).2).audit.Perm (cleanupKeepList max_rows db) ∧
       (∀ k ∈ ((cleanup_audit_log max_rows db).2).audit,
          ∀ d ∈ db.audit, d ∉ ((cleanup_audit_log max_rows db).2).audit →
            auditOrder k d)) := by
  constructor
  · intro hle
    simp [cleanup_audit_log, hle]
  · intro hlt
    have hperm_s : (List.insertionSort auditOrder db.audit).Perm db.audit :=
      List.perm_insertionSort auditOrder db.audit
    have hlen_s : (List.insertionSort auditOrder db.audit).length = db.audit.length :=
      hperm_s.length_eq
    have hlen_t : ((List.insertionSort auditOrder db.audit).take max_rows).length
        = max_rows := by
      rw [List.length_take, hlen_s]
      omega
    have hkeep_ne : ((cleanupKeepList max_rows db).map (fun e => e.id)) ≠ [] := by
      intro hnil
      have hcl := congrArg List.length hnil
      rw [List.length_map] at hcl
      rw [cleanupKeepList] at hcl
      rw [hlen_t] at hcl
      simp at hcl
      omega
    have hnd_s : ((List.insertionSort auditOrder db.audit).map (fun e => e.id)).Nodup :=
      ((hperm_s.map (fun e => e.id)).nodup_iff).mpr hnd
    have hp_t : ∀ e ∈ (List.insertionSort auditOrder db.audit).take max_rows,
        e.id ∈ (cleanupKeepList max_rows db).map (fun x => x.id) :=
      fun e he => List.mem_map_of_mem _ he
    have hp_d : ∀ e ∈ (List.insertionSort auditOrder db.audit).drop max_rows,
        e.id ∉ (cleanupKeepList max_rows db).map (fun x => x.id) := by
      intro e he hmem
      have hnd2 : ((((List.insertionSort auditOrder db.audit).take max_rows).map
            (fun x => x.id)) ++
          (((List.insertionSort auditOrder db.audit).drop max_rows).map
            (fun x => x.id))).Nodup := by
        rw [← List.map_append, List.take_append_drop]
        exact hnd_s
      exact List.disjoint_of_nodup_append hnd2 hmem (List.mem_map_of_mem _ he)
    have hfk : (List.insertionSort auditOrder db.audit).filter
        (fun e => decide (e.id ∈ (cleanupKeepList max_rows db).map (fun x => x.id))) =
        (List.insertionSort auditOrder db.audit).take max_rows :=
      filter_take_of_forall _ _ max_rows
        (fun e he => by simpa using hp_t e he)
        (fun e he => by simpa using hp_d e he)
    have hfd : (List.insertionSort auditOrder db.audit).filter
        (fun e => decide (e.id ∉ (cleanupKeepList max_rows db).map (fun x => x.id))) =
        (List.insertionSort auditOrder db.audit).drop max_rows :=
      filter_drop_of_forall _ _ max_rows
        (fun e he => by simpa using hp_t e he)
        (fun e he => by simpa using hp_d e he)
    have hrun : cleanup_audit_log max_rows db =
        ({ success := true,
           deleted_count := (db.audit.filter (fun e =>
             decide (e.id ∉ (cleanupKeepList max_rows db).map (fun e => e.id)))).length,
           error := none },
         { db with audit := db.audit.filter (fun e =>
             decide (e.id ∈ (cleanupKeepList max_rows db).map (fun e => e.id))) }) := by
      simp only [cleanup_audit_log]
      rw [if_neg (by omega)]
      rw [if_neg (by simpa [List.isEmpty_iff] using hkeep_ne)]
    have hkept : (db.audit.filter (fun e =>
        decide (e.id ∈ (cleanupKeepList max_rows db).map (fun e => e.id)))).Perm
        (cleanupKeepList max_rows db) := by
      have := (hperm_s.filter (fun e =>
        decide (e.id ∈ (cleanupKeepList max_rows db).map (fun e => e.id)))).symm
      rw [hfk] at this
      exact this
    have hremoved : (db.audit.filter (fun e =>
        decide (e.id ∉ (cleanupKeepList max_rows db).map (fun e => e.id)))).Perm
        ((List.insertionSort auditOrder db.audit).drop max_rows) := by
      have := (hperm_s.filter (fun e =>
        decide (e.id ∉ (cleanupKeepList max_rows db).map (fun e => e.id)))).symm
      rw [hfd] at this
      exact this
    rw [hrun]
    refine ⟨?_, ?_, hkept, ?_⟩
    · rw [hremoved.length_eq, List.length_drop, hlen_s]
    · rw [hkept.length_eq]
      rw [cleanupKeepList]
      exact hlen_t
    · intro k hk d hd hdn
      have hsorted : (List.insertionSort auditOrder db.audit).Pairwise auditOrder :=
        List.sorted_insertionSort auditOrder db.audit
      rw [← List.take_append_drop max_rows (List.insertionSort auditOrder db.audit)]
        at hsorted
      have hkmem := List.mem_filter.mp hk
      have hkid : k.id ∈ (cleanupKeepList max_rows db).map (fun e => e.id) := by
        simpa using hkmem.2
      have hks : k ∈ List.insertionSort auditOrder db.audit :=
        (hperm_s.mem_iff).mpr hkmem.1
      have hkt : k ∈ (List.insertionSort auditOrder db.audit).take max_rows := by
        rcases List.mem_append.mp (by
          rw [List.take_append_drop max_rows]
          exact hks) with h1 | h2
        · exact h1
        · exact absurd hkid (hp_d k h2)
      have hdp : d.id ∉ (cleanupKeepList max_rows db).map (fun e => e.id) := by
        intro hmem
        exact hdn (List.mem_filter.mpr ⟨hd, by simpa using hmem⟩)
      have hds : d ∈ List.insertionSort auditOrder db.audit :=
        (hperm_s.mem_iff).mpr hd
      have hdd : d ∈ (List.insertionSort auditOrder db.audit).drop max_rows := by
        rcases List.mem_append.mp (by
          rw [List.take_append_drop max_rows]
          exact hds) with h1 | h2
        · exact absurd (hp_t d h1) hdp
        · exact h2
      exact (List.pairwise_append.mp hsorted).2.2 k hkt d hdd

/-- C8 witness: on the three-entry log of `dbC8w` (ids 1, 2, 3; timestamps
10, 30, 10), a cleanup keeping 2 rows deletes exactly one entry and retains a
permutation of the two top entries of the recency order (id 2, then the
tie at timestamp 10 resolved towards id 3). -/
theorem cleanup_audit_log_retains_most_recent_witness :
    (cleanup_audit_log 2 dbC8w).1.deleted_count = dbC8w.audit.length - 2 ∧
    ((cleanup_audit_log 2 dbC8w).2).audit.length = 2 ∧
    ((cleanup_audit_log 2 dbC8w).2).audit.Perm (cleanupKeepList 2 dbC8w) :=
  have h := (cleanup_audit_log_retains_most_recent dbC8w 2 (by decide)
    (by decide)).2 (by decide)
  ⟨h.1, h.2.1, h.2.2.1⟩
